import Mathlib

/-!
Shallow embedding of the xor-list repository (src/xorlist.cpp, src/xorlist.ixx).

The container class `xorlist<T, Allocator>` is intended as an XOR linked
list (per the header comments citing the XOR-linked-list article), but in
the source every structural mutator's body is the single statement
`throw std::logic_error("Not yet implemented")`, the node link field is a
single plain pointer that is only ever set to the node's own address, and
the iterators advance by raw pointer arithmetic (`ptr++` / `ptr--`).

Modelling conventions:
- machine addresses are natural-number handles, in units of one node slot,
  so the C++ pointer increment `ptr++` is `+ 1`;
- a member function whose body throws is modelled as returning the thrown
  exception together with the container state observed after unwinding
  (the throw is the first statement of each such body, so that state is
  exactly the entry state);
- the element type is a type parameter, as in the C++ template.
-/

namespace xorlist

/-- Machine address: a stable integer handle for a node slot, as the spec's
design notes prescribe for managed targets. One unit is one node slot. -/
abbrev Addr := Nat

/-- Model of a thrown C++ exception object, carrying the `what()` message of
the `std::logic_error` that every unimplemented member throws. -/
structure CppThrow where
  msg : String
deriving DecidableEq

/-- Exception value thrown by every unimplemented member function of the
class, from the repeated statement at e.g. src/xorlist.cpp:693. -/
def notYetImpl : CppThrow := ⟨"Not yet implemented"⟩

/-- Node model, from src/xorlist.cpp:216-228. A node occupies an address and
stores a single combined-link field `_link`, which in the source is a plain
node pointer (`__node_pointer _link`), not an XOR of two addresses. The
stored value is kept separately in the list-state model. -/
structure _node where
  addr : Addr
  _link : Addr
deriving DecidableEq

/-- Default `_node` constructor, src/xorlist.cpp:221: the initializer
`_link(_self())` sets the link field to the node's own address. -/
def node_default (a : Addr) : _node := ⟨a, a⟩

/-- Translation of `__unlink_nodes(f, l)`, src/xorlist.cpp:1290-1293: the
body sets `f->_link = f` and `l->_link = l`, i.e. each of the two boundary
nodes is made to point at itself. -/
def __unlink_nodes (f l : _node) : _node × _node :=
  (⟨f.addr, f.addr⟩, ⟨l.addr, l.addr⟩)

/-- Follows the spec's words (section 4.1, link codec), for comparison with
the source: given the combined link field of the current node and the
address just arrived from, the other neighbour is their XOR. -/
def spec_codec (link fro : Addr) : Addr := Nat.xor link fro

/-- Follows the spec's words (section 3, sentinel node), for comparison with
the source: the sentinel's combined link is `address(last) XOR
address(first)`, both operands being the sentinel itself when empty. -/
def spec_sentinelLink (last first : Addr) : Addr := Nat.xor last first

/-- Iterator of the container, src/xorlist.cpp:139-169: it holds a single
raw pointer `ptr` and nothing else (no predecessor / came-from address). -/
structure iterator where
  ptr : Addr
deriving DecidableEq

/-- Pre-increment of `xorlist::iterator`, src/xorlist.cpp:150-153: the body
is `ptr++`, raw pointer arithmetic advancing to the adjacent memory slot;
the node link fields play no part. -/
def iterator.preInc (it : iterator) : iterator := ⟨it.ptr + 1⟩

/-- Pre-decrement of `xorlist::iterator`, src/xorlist.cpp:159-162: `ptr--`,
raw pointer arithmetic (truncating at address 0 in the Nat model). -/
def iterator.preDec (it : iterator) : iterator := ⟨it.ptr - 1⟩

/-- Const iterator of the container, src/xorlist.cpp:171-201: like
`iterator`, a single raw pointer. -/
structure const_iterator where
  ptr : Addr
deriving DecidableEq

/-- Pre-increment of `xorlist::const_iterator`, src/xorlist.cpp:182-186.
The body is `auto tmp = *this; ++(*this); return tmp;` - it copies the
iterator and then invokes pre-increment on itself again, unconditionally.
Modelled with fuel: the result is `some (returned value, final state)` if
the call finishes within the given fuel, `none` otherwise. When the
recursive call finishes with final state `st`, the outer call returns the
saved copy `it` and leaves the object at `st`. -/
def const_iterator.preInc : Nat → const_iterator → Option (const_iterator × const_iterator)
  | 0, _ => none
  | n + 1, it =>
    match const_iterator.preInc n it with
    | none => none
    | some (_, st) => some (it, st)

/-- Post-increment of `xorlist::const_iterator`, src/xorlist.cpp:187-190:
the body is `ptr++; return *this;` - it advances the pointer and returns
the already-incremented iterator, as `(returned value, new state)`. -/
def const_iterator.postInc (it : const_iterator) : const_iterator × const_iterator :=
  (⟨it.ptr + 1⟩, ⟨it.ptr + 1⟩)

/-- Pre-decrement of `xorlist::const_iterator`, src/xorlist.cpp:191-194:
`ptr--; return *this;`, as `(returned value, new state)`. -/
def const_iterator.preDec (it : const_iterator) : const_iterator × const_iterator :=
  (⟨it.ptr - 1⟩, ⟨it.ptr - 1⟩)

/-- Post-decrement of `xorlist::const_iterator`, src/xorlist.cpp:195-199:
`auto tmp = *this; --(*this); return tmp;` - it returns the saved old
value and leaves the pointer decremented, as `(returned value, new state)`. -/
def const_iterator.postDec (it : const_iterator) : const_iterator × const_iterator :=
  (it, ⟨it.ptr - 1⟩)

/-- Observable state of an `xorlist` object, from the data members at
src/xorlist.cpp:230-233: the `_size` counter and the sequence of element
values held by the node chain, in traversal order. The four pointers
`front0, front1, back0, back1` are initialized to `nullptr` and never read
or written by any member function, so they are omitted. -/
structure ListState (α : Type) where
  elems : List α
  size : Nat
deriving DecidableEq

/-- Default constructor, src/xorlist.cpp:242: the body is empty, `_size{}`
value-initializes the counter to 0 and no node is created. -/
def default_xorlist (α : Type) : ListState α := ⟨[], 0⟩

/-- Result of a member function call on one container that exits by
throwing: the exception and the container state after unwinding. -/
structure Thrown (α : Type) where
  exc : CppThrow
  state : ListState α
deriving DecidableEq

/-- Member `empty()`, src/xorlist.cpp:635: returns `_size == 0`, computed
directly from the counter with no traversal. -/
def empty (s : ListState α) : Bool := s.size == 0

/-- Member `size()`, src/xorlist.cpp:642: returns the stored counter
`_size`; no traversal. -/
def size (s : ListState α) : Nat := s.size

/-- Member `clear()`, src/xorlist.cpp:663-679: when the list is empty the
guard `if (!empty())` fails and nothing happens; otherwise the body unlinks
the whole chain, sets `_size = 0` and deallocates every node, leaving no
elements. -/
def clear (s : ListState α) : ListState α :=
  if s.size = 0 then s else ⟨[], 0⟩

/-- Member `end()` of the module-interface version, src/xorlist.ixx:432-435:
the body is `throw std::logic_error("Not yet implemented")`; no iterator
value is ever produced. (In src/xorlist.cpp:567 the body `return
iterator(end);` passes the member function name to a pointer constructor
and is not well-formed C++, so the .ixx body is the one translated.) -/
def end_ixx (s : ListState α) : Except CppThrow iterator := .error notYetImpl

/-- Member `begin()` of the module-interface version, src/xorlist.ixx:408:
the body `iterator(end()++);` first evaluates `end()`, which throws
unconditionally, so `begin()` never produces an iterator either; the rest
of the body (which also lacks a return statement) is never reached. (The
src/xorlist.cpp:548 version `iterator(end()++, this);` calls a nonexistent
two-argument iterator constructor and is not well-formed C++.) -/
def begin_ixx (s : ListState α) : Except CppThrow iterator :=
  match end_ixx s with
  | .error e => .error e
  | .ok it => .ok it

/-- Member `insert(pos, value)`, src/xorlist.cpp:692-694: the body is the
single statement `throw std::logic_error("Not yet implemented")`. -/
def insert (s : ListState α) (pos : const_iterator) (v : α) : Thrown α :=
  ⟨notYetImpl, s⟩

/-- Member `insert(pos, count, value)`, src/xorlist.cpp:724-726: throws
unconditionally. -/
def insert_n (s : ListState α) (pos : const_iterator) (count : Nat) (v : α) : Thrown α :=
  ⟨notYetImpl, s⟩

/-- Member `emplace(pos, args...)`, src/xorlist.cpp:777-779: throws
unconditionally; the constructor arguments are modelled by the constructed
value. -/
def emplace (s : ListState α) (pos : const_iterator) (v : α) : Thrown α :=
  ⟨notYetImpl, s⟩

/-- Member `erase(pos)`, src/xorlist.cpp:788: throws unconditionally. -/
def erase (s : ListState α) (pos : const_iterator) : Thrown α :=
  ⟨notYetImpl, s⟩

/-- Member `erase(first, last)`, src/xorlist.cpp:800-802: throws
unconditionally. -/
def erase_range (s : ListState α) (first last : const_iterator) : Thrown α :=
  ⟨notYetImpl, s⟩

/-- Member `push_back(value)`, src/xorlist.cpp:816 (and the rvalue overload
at 830): throws unconditionally, before any allocation is attempted. -/
def push_back (s : ListState α) (v : α) : Thrown α :=
  ⟨notYetImpl, s⟩

/-- Member `emplace_back(args...)`, src/xorlist.cpp:845-847: throws
unconditionally. -/
def emplace_back (s : ListState α) (v : α) : Thrown α :=
  ⟨notYetImpl, s⟩

/-- Member `push_front(value)`, src/xorlist.cpp:866 (and the rvalue
overload at 876): throws unconditionally. -/
def push_front (s : ListState α) (v : α) : Thrown α :=
  ⟨notYetImpl, s⟩

/-- Member `emplace_front(args...)`, src/xorlist.cpp:891-893: throws
unconditionally. -/
def emplace_front (s : ListState α) (v : α) : Thrown α :=
  ⟨notYetImpl, s⟩

/-- Member `pop_back()`, src/xorlist.cpp:856: throws unconditionally. -/
def pop_back (s : ListState α) : Thrown α :=
  ⟨notYetImpl, s⟩

/-- Member `pop_front()`, src/xorlist.cpp:899: throws unconditionally. -/
def pop_front (s : ListState α) : Thrown α :=
  ⟨notYetImpl, s⟩

/-- Member `resize(count)`, src/xorlist.cpp:915 (and the fill overload at
928-930): throws unconditionally. -/
def resize (s : ListState α) (count : Nat) : Thrown α :=
  ⟨notYetImpl, s⟩

/-- Member `swap(other)`, src/xorlist.cpp:944-946: throws unconditionally;
the result carries the exception and both containers' states after
unwinding, in the order (this, other). -/
def swap (s other : ListState α) : CppThrow × ListState α × ListState α :=
  (notYetImpl, s, other)

/-- Member `splice(pos, other)`, src/xorlist.cpp:1056 (the rvalue overload
at 1070 delegates to it): throws unconditionally; result as in `swap`. -/
def splice (s : ListState α) (pos : const_iterator) (other : ListState α) :
    CppThrow × ListState α × ListState α :=
  (notYetImpl, s, other)

/-- Member `splice(pos, other, it)`, src/xorlist.cpp:1084-1086 (rvalue
overload at 1100 delegates): throws unconditionally. -/
def splice_it (s : ListState α) (pos : const_iterator) (other : ListState α)
    (it : const_iterator) : CppThrow × ListState α × ListState α :=
  (notYetImpl, s, other)

/-- Member `splice(pos, other, first, last)`, src/xorlist.cpp:1115-1117
(rvalue overload at 1132 delegates): throws unconditionally. -/
def splice_range (s : ListState α) (pos : const_iterator) (other : ListState α)
    (first last : const_iterator) : CppThrow × ListState α × ListState α :=
  (notYetImpl, s, other)

/-- Member `sort(comp)`, src/xorlist.cpp:1287: throws unconditionally (the
comparator-less `sort()` at 1264 delegates to it). -/
def sort (s : ListState α) (comp : α → α → Bool) : Thrown α :=
  ⟨notYetImpl, s⟩

/-- Initializer-list constructor, src/xorlist.cpp:364-367: starting from
the default-constructed state it calls `push_back` for each element in
order. `push_back` throws, so the loop body never completes and the
exception propagates out of the constructor on the first element; an empty
initializer list performs no iteration and yields the empty list. -/
def ofInitList : List α → Except CppThrow (ListState α)
  | [] => .ok (default_xorlist α)
  | v :: _ => .error (push_back (default_xorlist α) v).exc

/-- Loop of `unique(BinaryPredicate)`, src/xorlist.cpp:1237-1253, read over
the element sequence and granting the iteration primitives their
documented behaviour (in the source, `begin()` itself is broken). For each
position `i`, `j` skips the run of `p`-equal successors; when the run is
non-trivial (`++i != j`) the body calls `deleted_nodes.splice(...)`, whose
body (src/xorlist.cpp:1115-1117) throws, so the exception propagates out
of `unique` at the first adjacent `p`-equal pair. When no two adjacent
elements satisfy `p`, the loop completes without ever splicing and the
function returns `deleted_nodes.size()`, which is 0. -/
def uniqueGo (p : α → α → Bool) : List α → Except CppThrow Nat
  | [] => .ok 0
  | [_] => .ok 0
  | x :: y :: rest =>
    if p x y then .error (splice_range (default_xorlist α) ⟨0⟩ (default_xorlist α) ⟨0⟩ ⟨0⟩).1
    else uniqueGo p (y :: rest)

/-- Member `unique(p)` applied to a container state, src/xorlist.cpp:1237. -/
def unique (p : α → α → Bool) (s : ListState α) : Except CppThrow Nat :=
  uniqueGo p s.elems

/-- Member `reverse()`, src/xorlist.cpp:1200-1211. For `_size <= 1` the
guard `if (_size > 1)` fails and the body does nothing. For `_size > 1`
the body has no executable semantics: it applies `std::swap` to the
prvalues `(*i)--` and `(*i)++` - post-decrement and post-increment of the
*element values*, not of the iterator - which is not well-formed C++ for
scalar element types, and the loop `for (iterator i = begin(); *i != *e;)`
never advances `i`. That branch is modelled as `none` (no defined result). -/
def reverse (s : ListState α) : Option (ListState α) :=
  if s.size ≤ 1 then some s else none

end xorlist

open xorlist

/-- C1: refuted on the source. The claim says iterator increment computes
the successor as current.link XOR from over a two-address cursor. In the
source the iterator holds a single address and its pre-increment is raw
pointer arithmetic (`ptr++`), independent of every link field: with the
sentinel at address 100 and element nodes at addresses 4 and 9, the spec
codec sends the iterator at node 4 (arrived from the sentinel) to the true
successor 9, while the source increment lands on the adjacent memory slot
5. -/
theorem c1_increment_is_pointer_arithmetic_not_codec :
    (∀ a : Addr, iterator.preInc ⟨a⟩ = ⟨a + 1⟩) ∧
    spec_codec (spec_codec 100 9) 100 = 9 ∧
    iterator.preInc ⟨4⟩ ≠ ⟨9⟩ :=
  ⟨fun _ => rfl, by decide, by decide⟩

/-- C2: refuted on the source. With the sentinel at address 1 and the list
empty, the claim requires the sentinel's link to equal address(last) XOR
address(first) = 1 XOR 1 = 0; but the default node constructor sets the
link field to the node's own address 1, and `__unlink_nodes` likewise
installs plain self pointers, not XOR combinations. -/
theorem c2_sentinel_links_are_self_pointers_not_xor :
    (node_default 1)._link = 1 ∧
    spec_sentinelLink 1 1 = 0 ∧
    (node_default 1)._link ≠ spec_sentinelLink 1 1 ∧
    __unlink_nodes (node_default 2) (node_default 3) = (⟨2, 2⟩, ⟨3, 3⟩) := by
  decide

/-- C3: confirmed. Every core structural mutator of the public interface
throws logic_error "Not yet implemented" for every input and leaves every
container state exactly as it was on entry. -/
theorem c3_every_mutator_throws_and_preserves_state (α : Type)
    (s other : ListState α) (pos first last : const_iterator)
    (v : α) (n : Nat) (comp : α → α → Bool) :
    insert s pos v = ⟨notYetImpl, s⟩ ∧
    insert_n s pos n v = ⟨notYetImpl, s⟩ ∧
    emplace s pos v = ⟨notYetImpl, s⟩ ∧
    erase s pos = ⟨notYetImpl, s⟩ ∧
    erase_range s first last = ⟨notYetImpl, s⟩ ∧
    push_back s v = ⟨notYetImpl, s⟩ ∧
    emplace_back s v = ⟨notYetImpl, s⟩ ∧
    push_front s v = ⟨notYetImpl, s⟩ ∧
    emplace_front s v = ⟨notYetImpl, s⟩ ∧
    pop_back s = ⟨notYetImpl, s⟩ ∧
    pop_front s = ⟨notYetImpl, s⟩ ∧
    resize s n = ⟨notYetImpl, s⟩ ∧
    swap s other = (notYetImpl, s, other) ∧
    splice s pos other = (notYetImpl, s, other) ∧
    splice_it s pos other first = (notYetImpl, s, other) ∧
    splice_range s pos other first last = (notYetImpl, s, other) ∧
    sort s comp = ⟨notYetImpl, s⟩ :=
  ⟨rfl, rfl, rfl, rfl, rfl, rfl, rfl, rfl, rfl, rfl, rfl, rfl, rfl, rfl, rfl, rfl, rfl⟩

/-- C4: refuted in part on the source. For the default-constructed (and
for the cleared) list, empty() is true and is computed directly from the
count; but begin() == end() cannot hold, because end() throws "Not yet
implemented" instead of returning an iterator value (and the .cpp bodies
of begin/end are not well-formed C++), so no iterator comparison ever
takes place. -/
theorem c4_empty_from_count_but_begin_end_throw :
    empty (default_xorlist Int) = true ∧
    empty (clear (default_xorlist Int)) = true ∧
    end_ixx (default_xorlist Int) = .error notYetImpl ∧
    begin_ixx (default_xorlist Int) = .error notYetImpl :=
  ⟨rfl, rfl, rfl, rfl⟩

/-- C5: refuted on the source. size() does return the stored counter, but
no structural operation ever updates that counter incrementally: insert
and erase throw without touching it, and no valid non-empty list can even
be produced, because the element-producing constructor path (push_back)
throws on the first element. -/
theorem c5_no_structural_op_ever_updates_count :
    size (default_xorlist Int) = 0 ∧
    (∀ (s : ListState Int) (pos : const_iterator) (v : Int),
      (insert s pos v).state.size = s.size ∧ (erase s pos).state.size = s.size) ∧
    ofInitList [(42 : Int)] = .error notYetImpl :=
  ⟨rfl, fun _ _ _ => ⟨rfl, rfl⟩, rfl⟩

/-- C6: refuted on the source. The single-element insertion operations
never insert anything: each throws logic_error "Not yet implemented"
before attempting any allocation, even when allocation would succeed, so
the "inserts exactly the one new element" arm of the claim never occurs
and the thrown error is not an allocation failure. -/
theorem c6_single_element_insertion_never_inserts :
    push_back (default_xorlist Int) 7 = ⟨notYetImpl, default_xorlist Int⟩ ∧
    (push_back (default_xorlist Int) 7).state.elems = [] ∧
    push_front (default_xorlist Int) 7 = ⟨notYetImpl, default_xorlist Int⟩ ∧
    insert (default_xorlist Int) ⟨0⟩ 7 = ⟨notYetImpl, default_xorlist Int⟩ ∧
    emplace (default_xorlist Int) ⟨0⟩ 7 = ⟨notYetImpl, default_xorlist Int⟩ :=
  ⟨rfl, rfl, rfl, rfl, rfl⟩

/-- C7: refuted on the source. splice(pos, other) throws logic_error "Not
yet implemented": with an empty destination and a source state holding
10, 20, 30, nothing is transferred and the source is left non-empty. -/
theorem c7_splice_transfers_nothing_and_other_stays :
    splice (default_xorlist Int) ⟨0⟩ ⟨[10, 20, 30], 3⟩ =
      (notYetImpl, default_xorlist Int, ⟨[10, 20, 30], 3⟩) ∧
    empty ((splice (default_xorlist Int) ⟨0⟩ (⟨[10, 20, 30], 3⟩ : ListState Int)).2.2) = false :=
  ⟨rfl, rfl⟩

/-- C8: refuted on the source. The list of the claim cannot even be
constructed (the initializer-list constructor throws on its first
element), and unique() applied to a state holding 1,2,2,3,3,2,1,1,2
propagates the logic_error thrown by the splice call on the first
duplicate pair instead of returning 3. -/
theorem c8_unique_throws_instead_of_returning_three :
    ofInitList ([1, 2, 2, 3, 3, 2, 1, 1, 2] : List Int) = .error notYetImpl ∧
    unique (fun a b : Int => a == b) ⟨[1, 2, 2, 3, 3, 2, 1, 1, 2], 9⟩ =
      .error notYetImpl ∧
    unique (fun a b : Int => a == b) ⟨[1, 2, 2, 3, 3, 2, 1, 1, 2], 9⟩ ≠ .ok 3 := by
  refine ⟨rfl, rfl, ?_⟩
  intro h
  exact Except.noConfusion h

/-- C9: refuted on the source. reverse() only has semantics for lists of
size at most 1, where its guard makes it the identity; the body for larger
lists is not well-formed C++, and no list of size 2 or more can be
constructed anyway because element construction throws. -/
theorem c9_reverse_degenerate :
    ofInitList ([8, 7, 5, 9, 0, 1, 3, 2, 6, 4] : List Int) = .error notYetImpl ∧
    reverse (default_xorlist Int) = some (default_xorlist Int) ∧
    reverse (⟨[1, 2], 2⟩ : ListState Int) = none :=
  ⟨rfl, rfl, rfl⟩

/-- C10: confirmed. const_iterator pre-increment copies the iterator and
then invokes pre-increment on itself again, so for every fuel bound and
every iterator value the call fails to terminate; the swapped bodies also
show in the post-forms: post-increment performs the pointer advance and
returns the already-advanced iterator, while post-decrement returns the
saved old value, breaking the pre/post symmetry between increment and
decrement. -/
theorem c10_const_preinc_never_terminates :
    (∀ (fuel : Nat) (it : const_iterator), const_iterator.preInc fuel it = none) ∧
    (∀ it : const_iterator, const_iterator.postInc it = (⟨it.ptr + 1⟩, ⟨it.ptr + 1⟩)) ∧
    (∀ it : const_iterator, const_iterator.postDec it = (it, ⟨it.ptr - 1⟩)) := by
  refine ⟨?_, fun _ => rfl, fun _ => rfl⟩
  intro fuel
  induction fuel with
  | zero => intro it; rfl
  | succ n ih =>
    intro it
    simp [const_iterator.preInc, ih it]
